import Mathlib

/-!
Verification of the `outlook-exe` crate (`src/lib.rs`).

Strings are embedded as `List Char`; Rust `String`/`&str` values become
`List Char`, `Vec<String>` becomes `List (List Char)`.

`String::replace` with a single-character pattern replaces every occurrence
of that character by the replacement string, left to right; it is embedded
as `replaceChar` below.
-/

/-- The double-quote character `"` (written via `Char.ofNat` to keep the
file free of quote characters inside character literals). -/
def quoteChar : Char := Char.ofNat 34

/-- Rust `s.replace(c, r)` for a one-character pattern `c`: every occurrence
of `c` in `s` is replaced by `r`. -/
def replaceChar (c : Char) (r : List Char) : List Char → List Char
  | [] => []
  | x :: xs => (if x = c then r else [x]) ++ replaceChar c r xs

/-- Embeds `percent_escape` (src/lib.rs:43-48): replace `%` by `%25`, then
the double quote by `%22`, then `&` by `%26`, then `?` by `%3F`, in that
order. -/
def percent_escape (s : List Char) : List Char :=
  replaceChar '?' ['%', '3', 'F']
    (replaceChar '&' ['%', '2', '6']
      (replaceChar quoteChar ['%', '2', '2']
        (replaceChar '%' ['%', '2', '5'] s)))

/-- Per-character escaping map: what one pass over the input should do to
each character, each special character replaced exactly once. -/
def escChar (c : Char) : List Char :=
  if c = '%' then ['%', '2', '5']
  else if c = quoteChar then ['%', '2', '2']
  else if c = '&' then ['%', '2', '6']
  else if c = '?' then ['%', '3', 'F']
  else [c]

/-- Single-pass escaping: `escChar` applied to every character of the input,
results concatenated.  Each occurrence of a special character is replaced
exactly once and inserted escape sequences are never re-encoded. -/
def escSpec : List Char → List Char
  | [] => []
  | c :: cs => escChar c ++ escSpec cs

theorem replaceChar_append (c : Char) (r xs ys : List Char) :
    replaceChar c r (xs ++ ys) = replaceChar c r xs ++ replaceChar c r ys := by
  induction xs with
  | nil => rfl
  | cons x xs ih =>
      simp [replaceChar, ih, List.append_assoc]

theorem percent_escape_cons (x : Char) (xs : List Char) :
    percent_escape (x :: xs) = escChar x ++ percent_escape xs := by
  by_cases h1 : x = '%'
  · subst h1
    simp [percent_escape, replaceChar, replaceChar_append, escChar, quoteChar]
  · by_cases h2 : x = quoteChar
    · subst h2
      simp [percent_escape, replaceChar, replaceChar_append, escChar, quoteChar]
    · by_cases h3 : x = '&'
      · subst h3
        simp [percent_escape, replaceChar, replaceChar_append, escChar, quoteChar]
      · by_cases h4 : x = '?'
        · subst h4
          simp [percent_escape, replaceChar, replaceChar_append, escChar, quoteChar]
        · simp [percent_escape, replaceChar, replaceChar_append, escChar,
            h1, h2, h3, h4]

theorem percent_escape_eq_escSpec (s : List Char) :
    percent_escape s = escSpec s := by
  induction s with
  | nil => rfl
  | cons x xs ih => rw [percent_escape_cons, escSpec, ih]

/-- The concrete input `A&B"C?D%E` from the spec. -/
def exC1in : List Char := ['A', '&', 'B', quoteChar, 'C', '?', 'D', '%', 'E']

/-- The expected output `A%26B%22C%3FD%25E`. -/
def exC1out : List Char :=
  "A%26B%22C%3FD%25E".data

/-- The concrete input `50% off?`. -/
def exC1in2 : List Char := "50% off?".data

/-- The expected output `50%25 off%3F`. -/
def exC1out2 : List Char := "50%25 off%3F".data

/-- The double-encoded (wrong) output `50%2525 off%3F`. -/
def exC1bad : List Char := "50%2525 off%3F".data

/-- C1: `percent_escape` replaces each occurrence of the four special
characters exactly once (`%`→`%25`, `"`→`%22`, `&`→`%26`, `?`→`%3F`),
percent first, so inserted escape sequences are never re-encoded: it equals
the single-pass per-character map `escSpec`; in particular
`A&B"C?D%E` maps to `A%26B%22C%3FD%25E` and `50% off?` maps to
`50%25 off%3F`, never `50%2525 off%3F`. -/
theorem C1_percent_escape_single_pass :
    (∀ s : List Char, percent_escape s = escSpec s)
    ∧ percent_escape exC1in = exC1out
    ∧ percent_escape exC1in2 = exC1out2
    ∧ percent_escape exC1in2 ≠ exC1bad := by
  refine ⟨percent_escape_eq_escSpec, by decide, by decide, by decide⟩

/-- Embeds the `MessageBuilder` struct (src/lib.rs:52-59). -/
structure MessageBuilder where
  subj : List Char
  «to» : List (List Char)
  cc : List (List Char)
  bcc : List (List Char)
  body : List Char
  file : List Char
deriving DecidableEq, Repr

/-- Embeds `MessageBuilder::new` (src/lib.rs:65-74): all fields empty. -/
def MessageBuilder.new : MessageBuilder :=
  { subj := [], «to» := [], cc := [], bcc := [], body := [], file := [] }

/-- Embeds `with_subject` (src/lib.rs:81-94); release-build value semantics
(the `debug_assert!` is modelled separately by `with_subject_assertCond`). -/
def MessageBuilder.with_subject (self : MessageBuilder) (subj : List Char) :
    MessageBuilder :=
  ⟨subj, self.«to», self.cc, self.bcc, self.body, self.file⟩

/-- The condition asserted by `debug_assert!` in `with_subject`
(src/lib.rs:85): the assertion fires (in debug builds only) exactly when
this is `false`. -/
def with_subject_assertCond (self : MessageBuilder) : Bool :=
  self.subj.isEmpty

/-- Embeds `with_recipient` (src/lib.rs:99-112): pushes one address onto
`to`. -/
def MessageBuilder.with_recipient (self : MessageBuilder) («to» : List Char) :
    MessageBuilder :=
  ⟨self.subj, self.«to» ++ [«to»], self.cc, self.bcc, self.body, self.file⟩

/-- Embeds `with_recipient_cc` (src/lib.rs:117-130): pushes one address onto
`cc`. -/
def MessageBuilder.with_recipient_cc (self : MessageBuilder) (cc : List Char) :
    MessageBuilder :=
  ⟨self.subj, self.«to», self.cc ++ [cc], self.bcc, self.body, self.file⟩

/-- Embeds `with_recipient_bcc` (src/lib.rs:135-148): pushes one address
onto `bcc`. -/
def MessageBuilder.with_recipient_bcc (self : MessageBuilder) (bcc : List Char) :
    MessageBuilder :=
  ⟨self.subj, self.«to», self.cc, self.bcc ++ [bcc], self.body, self.file⟩

/-- Embeds `with_body` (src/lib.rs:155-168); release-build value semantics. -/
def MessageBuilder.with_body (self : MessageBuilder) (body : List Char) :
    MessageBuilder :=
  ⟨self.subj, self.«to», self.cc, self.bcc, body, self.file⟩

/-- The condition asserted by `debug_assert!` in `with_body`
(src/lib.rs:159). -/
def with_body_assertCond (self : MessageBuilder) : Bool :=
  self.body.isEmpty

/-- Embeds `with_attachment` (src/lib.rs:177-193); release-build value
semantics. -/
def MessageBuilder.with_attachment (self : MessageBuilder) (file : List Char) :
    MessageBuilder :=
  ⟨self.subj, self.«to», self.cc, self.bcc, self.body, file⟩

/-- The condition asserted by `debug_assert!` in `with_attachment`
(src/lib.rs:181-184). -/
def with_attachment_assertCond (self : MessageBuilder) : Bool :=
  self.file.isEmpty

/-- Embeds the parameter-string assembly in `spawn` (src/lib.rs:202-231):
start from the escaped `;`-joined `to` list, then for each of `cc`, `bcc`,
`subj`, `body` in turn, when the field is non-empty, append `&` (only when
the accumulated string is non-empty) followed by the field prefix and the
escaped value. -/
def spawnParam (m : MessageBuilder) : List Char :=
  let s0 := percent_escape (List.intercalate [';'] m.«to»)
  let s1 :=
    if m.cc.isEmpty then s0
    else (if s0.isEmpty then s0 else s0 ++ ['&']) ++ ['c', 'c', '='] ++
      percent_escape (List.intercalate [';'] m.cc)
  let s2 :=
    if m.bcc.isEmpty then s1
    else (if s1.isEmpty then s1 else s1 ++ ['&']) ++ ['b', 'c', 'c', '='] ++
      percent_escape (List.intercalate [';'] m.bcc)
  let s3 :=
    if m.subj.isEmpty then s2
    else (if s2.isEmpty then s2 else s2 ++ ['&']) ++
      ['s', 'u', 'b', 'j', 'e', 'c', 't', '='] ++ percent_escape m.subj
  let s4 :=
    if m.body.isEmpty then s3
    else (if s3.isEmpty then s3 else s3 ++ ['&']) ++
      ['b', 'o', 'd', 'y', '='] ++ percent_escape m.body
  s4

/-- Embeds the attachment-flag assembly in `spawn` (src/lib.rs:232-237):
empty when no attachment was set, otherwise exactly `/a` followed by the
escaped path. -/
def spawnAttachArgs (m : MessageBuilder) : List (List Char) :=
  if m.file.isEmpty then [] else [['/', 'a'], percent_escape m.file]

/-- Embeds `io::ErrorKind` as used by `spawn`: only `NotFound` is
constructed by this crate (src/lib.rs:239). -/
inductive ErrorKind where
  | notFound
deriving DecidableEq, Repr

/-- The invocation handed to the process-spawning collaborator:
`Command::new(program)` plus its argument list (src/lib.rs:240-246). -/
structure SpawnedCommand where
  program : List Char
  args : List (List Char)
deriving DecidableEq, Repr

/-- Embeds `spawn` (src/lib.rs:201-247).  The OS-level lookup result
`OUTLOOK_EXE` is passed in as `outlook_exe : Option (List Char)`; `none`
yields the `NotFound` error (src/lib.rs:238-239) and no command is ever
handed to the process-spawning collaborator (an `Except.ok` value is the
collaborator invocation). -/
def MessageBuilder.spawn (self : MessageBuilder)
    (outlook_exe : Option (List Char)) : Except ErrorKind SpawnedCommand :=
  let s := spawnParam self
  let a := spawnAttachArgs self
  match outlook_exe with
  | none => Except.error ErrorKind.notFound
  | some exe =>
      Except.ok
        ⟨exe, [['/', 'c'], ['i', 'p', 'm', '.', 'n', 'o', 't', 'e'],
          ['/', 'm'], s] ++ a⟩

/-- Spec-side To segment: the escaped `;`-joined To list, no field-name
prefix. -/
def toSeg (m : MessageBuilder) : List Char :=
  percent_escape (List.intercalate [';'] m.«to»)

/-- Spec-side Cc segment: absent (empty) when no Cc recipient was added,
otherwise `cc=` followed by the escaped `;`-joined list. -/
def ccSeg (m : MessageBuilder) : List Char :=
  if m.cc.isEmpty then [] else
    ['c', 'c', '='] ++ percent_escape (List.intercalate [';'] m.cc)

/-- Spec-side Bcc segment. -/
def bccSeg (m : MessageBuilder) : List Char :=
  if m.bcc.isEmpty then [] else
    ['b', 'c', 'c', '='] ++ percent_escape (List.intercalate [';'] m.bcc)

/-- Spec-side Subject segment. -/
def subjSeg (m : MessageBuilder) : List Char :=
  if m.subj.isEmpty then [] else
    ['s', 'u', 'b', 'j', 'e', 'c', 't', '='] ++ percent_escape m.subj

/-- Spec-side Body segment. -/
def bodySeg (m : MessageBuilder) : List Char :=
  if m.body.isEmpty then [] else
    ['b', 'o', 'd', 'y', '='] ++ percent_escape m.body

/-- Joining one more segment onto an assembled string, following the spec
wording: an empty segment contributes nothing; a non-empty segment after a
non-empty leader is preceded by `&`; a non-empty segment after nothing
becomes the leader with no preceding `&`. -/
def addSeg (s seg : List Char) : List Char :=
  if seg.isEmpty then s
  else if s.isEmpty then seg
  else s ++ ['&'] ++ seg

/-- The assembled parameter string as the spec describes it: the segments
To, Cc, Bcc, Subject, Body in this fixed order, the non-empty ones joined
by `&`, the first non-empty one as leader. -/
def assembleSpec (m : MessageBuilder) : List Char :=
  addSeg (addSeg (addSeg (addSeg (toSeg m) (ccSeg m)) (bccSeg m)) (subjSeg m))
    (bodySeg m)

theorem assembleStep (acc : List Char) (b : Bool) (p e : List Char)
    (hp : p ≠ []) :
    (if b then acc
     else (if acc.isEmpty then acc else acc ++ ['&']) ++ p ++ e)
      = addSeg acc (if b then [] else p ++ e) := by
  cases b
  · cases acc <;> cases p <;>
      first
        | exact absurd rfl hp
        | simp [addSeg, List.append_assoc]
  · simp [addSeg]

theorem spawnParam_eq_assembleSpec (m : MessageBuilder) :
    spawnParam m = assembleSpec m := by
  simp only [spawnParam, assembleSpec, toSeg, ccSeg, bccSeg, subjSeg, bodySeg]
  rw [assembleStep _ m.cc.isEmpty ['c', 'c', '='] _ (by simp),
    assembleStep _ m.bcc.isEmpty ['b', 'c', 'c', '='] _ (by simp),
    assembleStep _ m.subj.isEmpty ['s', 'u', 'b', 'j', 'e', 'c', 't', '=']
      _ (by simp),
    assembleStep _ m.body.isEmpty ['b', 'o', 'd', 'y', '='] _ (by simp)]

/-- Concrete To address used in the assembly example. -/
def exTo : List Char := "t@x.com".data

/-- Concrete Cc address used in the assembly example. -/
def exCc : List Char := "c@x.com".data

/-- Concrete Bcc address used in the assembly example. -/
def exBcc : List Char := "k@x.com".data

/-- Concrete subject used in the assembly example. -/
def exSubj : List Char := "Hi".data

/-- Concrete body used in the assembly example. -/
def exBody : List Char := "Text".data

/-- Builder with all five fields set. -/
def mbAllSet : MessageBuilder :=
  ((((MessageBuilder.new.with_recipient exTo).with_recipient_cc
    exCc).with_recipient_bcc exBcc).with_subject exSubj).with_body exBody

/-- Expected assembled parameter for `mbAllSet`. -/
def mbAllSetParam : List Char :=
  "t@x.com&cc=c@x.com&bcc=k@x.com&subject=Hi&body=Text".data

/-- Builder with only subject and body set. -/
def mbSubjBody : MessageBuilder :=
  (MessageBuilder.new.with_subject exSubj).with_body exBody

/-- Expected assembled parameter for `mbSubjBody`: `subject=` leads with no
preceding `&`. -/
def mbSubjBodyParam : List Char := "subject=Hi&body=Text".data

/-- C2: the parameter string assembled by `spawn` is the concatenation, in
the fixed order To, Cc, Bcc, Subject, Body, of exactly the non-empty
segments — the To segment being the escaped `;`-joined To list with no
field-name prefix, the others being `cc=`/`bcc=`/`subject=`/`body=` plus
the escaped value — each non-empty segment after the first preceded by
`&`, the first non-empty one the leader with no preceding `&`; with all
five fields set the result is `<to>&cc=<cc>&bcc=<bcc>&subject=<s>&body=<b>`
and with only subject and body set it is `subject=<s>&body=<b>`. -/
theorem C2_parameter_assembly :
    (∀ m : MessageBuilder, spawnParam m = assembleSpec m)
    ∧ spawnParam mbAllSet = mbAllSetParam
    ∧ spawnParam mbSubjBody = mbSubjBodyParam := by
  refine ⟨spawnParam_eq_assembleSpec, by decide, by decide⟩

/-- C3: with the locator reporting absence, `spawn` returns the `NotFound`
error and never produces a collaborator invocation (an `Except.ok`
value models handing a command to the process-spawning collaborator). -/
theorem C3_absent_locator_not_found :
    ∀ m : MessageBuilder,
      m.spawn none = Except.error ErrorKind.notFound
      ∧ ∀ cmd : SpawnedCommand, m.spawn none ≠ Except.ok cmd := by
  intro m
  exact ⟨rfl, fun cmd h => by simp [MessageBuilder.spawn] at h⟩

/-- Concrete attachment path `C:/tmp/file.txt`, unchanged by escaping. -/
def exFile : List Char := "C:/tmp/file.txt".data

/-- C4: whenever `spawn` launches a process it passes exactly `/c`,
`ipm.note`, `/m`, the assembled parameter string, and — exactly when an
attachment was set — the two further arguments `/a` and the escaped
attachment path, in that order; with attachment `C:/tmp/file.txt` the
appended pair is exactly `/a`, `C:/tmp/file.txt`. -/
theorem C4_argument_sequence :
    (∀ (m : MessageBuilder) (exe : List Char),
      m.spawn (some exe) =
        Except.ok
          ⟨exe, [['/', 'c'], ['i', 'p', 'm', '.', 'n', 'o', 't', 'e'],
            ['/', 'm'], spawnParam m] ++
              (if m.file.isEmpty then []
               else [['/', 'a'], percent_escape m.file])⟩)
    ∧ ∀ exe : List Char,
        (MessageBuilder.new.with_attachment exFile).spawn (some exe) =
          Except.ok
            ⟨exe, [['/', 'c'], ['i', 'p', 'm', '.', 'n', 'o', 't', 'e'],
              ['/', 'm'], [], ['/', 'a'], exFile]⟩ := by
  constructor
  · intro m exe
    rfl
  · intro exe
    rfl

/-- Concrete recipient `a@x.com`. -/
def exA : List Char := "a@x.com".data

/-- Concrete recipient `b@x.com`. -/
def exB : List Char := "b@x.com".data

/-- Concrete recipient `c@x.com`. -/
def exC : List Char := "c@x.com".data

/-- The joined value `a@x.com;b@x.com;c@x.com`. -/
def exJoined : List Char := "a@x.com;b@x.com;c@x.com".data

/-- C7: each recipient-adding call appends exactly one address to its own
list, preserving call order, and the list is `;`-joined at encoding time;
adding `a@x.com`, `b@x.com`, `c@x.com` yields the pre-escaping joined value
`a@x.com;b@x.com;c@x.com`, for To, Cc and Bcc alike. -/
theorem C7_recipient_accumulation :
    (∀ (m : MessageBuilder) (x : List Char),
      (m.with_recipient x).«to» = m.«to» ++ [x]
      ∧ (m.with_recipient_cc x).cc = m.cc ++ [x]
      ∧ (m.with_recipient_bcc x).bcc = m.bcc ++ [x])
    ∧ List.intercalate [';']
        (((MessageBuilder.new.with_recipient exA).with_recipient
          exB).with_recipient exC).«to» = exJoined
    ∧ List.intercalate [';']
        (((MessageBuilder.new.with_recipient_cc exA).with_recipient_cc
          exB).with_recipient_cc exC).cc = exJoined
    ∧ List.intercalate [';']
        (((MessageBuilder.new.with_recipient_bcc exA).with_recipient_bcc
          exB).with_recipient_bcc exC).bcc = exJoined := by
  refine ⟨fun m x => ⟨rfl, rfl, rfl⟩, by decide, by decide, by decide⟩

/-- C8: a builder with no fields set assembles the empty parameter string
and the empty attachment-flag sequence, so the launched invocation is
exactly `/c`, `ipm.note`, `/m`, the empty string, with no `/a` pair. -/
theorem C8_empty_builder :
    spawnParam MessageBuilder.new = []
    ∧ spawnAttachArgs MessageBuilder.new = []
    ∧ ∀ exe : List Char,
        MessageBuilder.new.spawn (some exe) =
          Except.ok
            ⟨exe, [['/', 'c'], ['i', 'p', 'm', '.', 'n', 'o', 't', 'e'],
              ['/', 'm'], []]⟩ :=
  ⟨rfl, rfl, fun _ => rfl⟩

/-- C9: every field-setter is pure accumulation touching only its own
field: the three single-value setters replace exactly their field, the
three recipient-adders append exactly one element to exactly their list,
and all other fields of the result equal those of the input builder. -/
theorem C9_setters_frame :
    ∀ (m : MessageBuilder) (v : List Char),
      m.with_subject v = { m with subj := v }
      ∧ m.with_body v = { m with body := v }
      ∧ m.with_attachment v = { m with file := v }
      ∧ m.with_recipient v = { m with «to» := m.«to» ++ [v] }
      ∧ m.with_recipient_cc v = { m with cc := m.cc ++ [v] }
      ∧ m.with_recipient_bcc v = { m with bcc := m.bcc ++ [v] } :=
  fun _ _ => ⟨rfl, rfl, rfl, rfl, rfl, rfl⟩

/-- C6: calling a single-use setter a second time overwrites the previous
value (no runtime error: the setter is a total function and the second
call yields the builder with the new value); its `debug_assert!` condition
is false — the assertion fires — exactly when the field being set is
already non-empty. -/
theorem C6_single_use_setters :
    ∀ (m : MessageBuilder) (s t : List Char),
      (m.with_subject s).with_subject t = { m with subj := t }
      ∧ (m.with_body s).with_body t = { m with body := t }
      ∧ (m.with_attachment s).with_attachment t = { m with file := t }
      ∧ (with_subject_assertCond m = false ↔ m.subj ≠ [])
      ∧ (with_body_assertCond m = false ↔ m.body ≠ [])
      ∧ (with_attachment_assertCond m = false ↔ m.file ≠ [])
      ∧ with_subject_assertCond (m.with_subject s) = s.isEmpty
      ∧ with_body_assertCond (m.with_body s) = s.isEmpty
      ∧ with_attachment_assertCond (m.with_attachment s) = s.isEmpty := by
  intro m s t
  refine ⟨rfl, rfl, rfl, ?_, ?_, ?_, rfl, rfl, rfl⟩
  · cases h : m.subj <;> simp [with_subject_assertCond, h]
  · cases h : m.body <;> simp [with_body_assertCond, h]
  · cases h : m.file <;> simp [with_attachment_assertCond, h]

/-- C10: a single-use field set to the empty string is indistinguishable
from a field never set: the resulting builder equals one whose field is
empty, a subsequent second call finds the field empty so the
`debug_assert!` does not fire, the corresponding `subject=`/`body=`
segment and `/a` pair are absent at `spawn`, and spawning an empty-set
builder equals spawning a fresh one. -/
theorem C10_empty_string_is_unset :
    ∀ (m : MessageBuilder) (loc : Option (List Char)),
      m.with_subject [] = { m with subj := [] }
      ∧ m.with_body [] = { m with body := [] }
      ∧ m.with_attachment [] = { m with file := [] }
      ∧ with_subject_assertCond (m.with_subject []) = true
      ∧ with_body_assertCond (m.with_body []) = true
      ∧ with_attachment_assertCond (m.with_attachment []) = true
      ∧ subjSeg { m with subj := [] } = []
      ∧ bodySeg { m with body := [] } = []
      ∧ spawnAttachArgs { m with file := [] } = []
      ∧ (MessageBuilder.new.with_subject []).spawn loc =
          MessageBuilder.new.spawn loc
      ∧ (MessageBuilder.new.with_body []).spawn loc =
          MessageBuilder.new.spawn loc
      ∧ (MessageBuilder.new.with_attachment []).spawn loc =
          MessageBuilder.new.spawn loc := by
  intro m loc
  refine ⟨rfl, rfl, rfl, rfl, rfl, rfl, rfl, rfl, rfl, ?_, ?_, ?_⟩ <;>
    cases loc <;> rfl

/-- Modelled from the spec: the process-wide memoization of `OUTLOOK_EXE`
(src/lib.rs:24-41) is provided by the `lazy_static` dependency, whose code
is not part of this repository; the spec describes it as a lookup
"performed at most once per process" whose result is "cached for all
subsequent calls".  `cache` is the write-once cell (empty or holding the
resolved optional path) and `queries` counts configuration-store lookups. -/
structure LocatorState where
  cache : Option (Option (List Char))
  queries : Nat
deriving DecidableEq, Repr

/-- Modelled from the spec: one access to the lazily initialized
`OUTLOOK_EXE` value.  `store` is the result the configuration-store lookup
would produce.  A filled cache is returned as-is; an empty cache triggers
the single lookup, recording the query and filling the cache. -/
def locate (store : Option (List Char)) (st : LocatorState) :
    Option (List Char) × LocatorState :=
  match st.cache with
  | some v => (v, st)
  | none => (store, ⟨some store, st.queries + 1⟩)

/-- `n` successive accesses to the locator, returning the final state. -/
def locateRun (store : Option (List Char)) : Nat → LocatorState → LocatorState
  | 0, st => st
  | n + 1, st => locateRun store n (locate store st).2

theorem locateRun_cached (store v : Option (List Char)) (q : Nat) (n : Nat) :
    locateRun store n ⟨some v, q⟩ = ⟨some v, q⟩ := by
  induction n with
  | zero => rfl
  | succ n ih => rw [locateRun, locate, ih]

/-- C5: the configuration-store query happens at most once per process:
starting from the fresh (empty-cache) state, any positive number of
accesses leaves exactly one recorded query with the first result cached,
and every further access returns that identical cached result without
changing the state. -/
theorem C5_locator_queries_once :
    ∀ (store : Option (List Char)) (n : Nat),
      locateRun store (n + 1) ⟨none, 0⟩ = ⟨some store, 1⟩
      ∧ locate store ⟨some store, 1⟩ = (store, ⟨some store, 1⟩) := by
  intro store n
  refine ⟨?_, rfl⟩
  rw [locateRun, locate]
  exact locateRun_cached store store 1 n
